import Mathlib

/-!
Verification development for the meet.dev repository: a minimal full-stack
scaffold with an environment-variable loader, an HTTP entry point that
conditionally serves a built single-page application, a React frontend root
component, and a test-harness setup file.

The backend `server.js` and `lib/env.js` modules are known only through the
spec and their unit tests; they are modelled here from the spec.  The
frontend root component (`src/frontend/src/App.jsx`) and the test setup
(`src/backend/jest.setup.js`) are embedded directly from the source.
-/

namespace MeetDev

/-- The process environment, restricted to the three variables the
repository reads: `PORT`, `DB_URL`, `NODE_ENV`.  A variable is either a
present string or absent (`none`). -/
structure ProcessEnv where
  PORT : Option String
  DB_URL : Option String
  NODE_ENV : Option String
deriving Repr, DecidableEq

/-- The configuration record exposed by the loader: exactly the three
fields port, database URL and runtime mode, each a string or absent. -/
structure EnvRecord where
  PORT : Option String
  DB_URL : Option String
  NODE_ENV : Option String
deriving Repr, DecidableEq

/-- Modelled from the spec: `backend/src/lib/env.js` (the module itself is
absent from the sources; only its tests are present).  On first access the
loader reads the named values from the process environment and exposes them
as a fixed set of string-or-absent fields, with no parsing, coercion or
validation, and raising no error when a value is missing.  Reading is
modelled as a state function returning the record together with the
(unchanged) process environment. -/
def loadENV (e : ProcessEnv) : EnvRecord × ProcessEnv :=
  ({ PORT := e.PORT, DB_URL := e.DB_URL, NODE_ENV := e.NODE_ENV }, e)

/-- The `ENV` object exported by the loader, as a function of the process
environment it was loaded from. -/
def ENV (e : ProcessEnv) : EnvRecord :=
  (loadENV e).1

/-- The three named fields of the configuration record. -/
inductive Field where
  | port
  | dbUrl
  | nodeEnv
deriving Repr, DecidableEq

/-- Field projection of the configuration record. -/
def EnvRecord.get : EnvRecord → Field → Option String
  | r, .port => r.PORT
  | r, .dbUrl => r.DB_URL
  | r, .nodeEnv => r.NODE_ENV

/-- Modelled from the spec: reading one field of the loaded `ENV` object.
An access returns the field value together with the program state (the
record and the process environment), which it does not change. -/
def accessENV (f : Field) (s : EnvRecord × ProcessEnv) :
    Option String × (EnvRecord × ProcessEnv) :=
  (s.1.get f, s)

/-- JavaScript falsiness for a string-or-absent value: `undefined` and the
empty string are falsy (this is the semantics of the `||` operator used in
`jest.setup.js`). -/
def jsFalsy : Option String → Bool
  | none => true
  | some s => s = ""

/-- `v || d` on a string-or-absent value, as in `jest.setup.js`. -/
def orDefault (v : Option String) (d : String) : Option String :=
  if jsFalsy v then some d else v

/-- `src/backend/jest.setup.js`: unconditionally sets `NODE_ENV` to
`"test"`, and sets `PORT` and `DB_URL` to defaults when they are falsy
(`process.env.PORT = process.env.PORT || '3000'`, and likewise for
`DB_URL` with `'mongodb://localhost:27017/test'`). -/
def jestSetup (e : ProcessEnv) : ProcessEnv :=
  { NODE_ENV := some "test"
    PORT := orDefault e.PORT "3000"
    DB_URL := orDefault e.DB_URL "mongodb://localhost:27017/test" }

/-- A filesystem path, as the list of segments successively joined by
`path.join` (which concatenates its arguments with the separator). -/
abbrev Path := List String

/-- The fixed relative path from the server source directory to the
frontend build output directory, `../frontend/dist`, as segments. -/
def frontendDistSegs : Path := ["..", "frontend", "dist"]

/-- An HTTP request, as the part of it the handlers can observe. -/
structure Request where
  method : String
  url : String
deriving Repr, DecidableEq

/-- A response produced by a route handler: either a JSON body sent with a
status code, or a file sent by path. -/
inductive Response where
  | jsonRes (status : Nat) (body : List (String × String))
  | sendFile (path : Path)
deriving Repr, DecidableEq

/-- A route handler maps a request to the response it sends. -/
abbrev Handler := Request → Response

/-- A middleware registered on the application.  The only middleware the
repository registers is static-file serving rooted at a path. -/
inductive Middleware where
  | staticServe (root : Path)
deriving Repr, DecidableEq

/-- The observable effect of constructing the Express application: the GET
routes registered (path and handler, in order), the middleware registered,
and the `listen` calls made (port argument and completion callback, where
the callback returns the line it logs). -/
structure ExpressApp where
  gets : List (String × Handler)
  uses : List Middleware
  listenCalls : List (Option String × (Unit → String))

/-- A fresh Express application: nothing registered. -/
def ExpressApp.empty : ExpressApp :=
  { gets := [], uses := [], listenCalls := [] }

/-- `app.get(path, handler)`: registers a GET route. -/
def ExpressApp.get (a : ExpressApp) (p : String) (h : Handler) : ExpressApp :=
  { a with gets := a.gets ++ [(p, h)] }

/-- `app.use(m)`: registers a middleware. -/
def ExpressApp.use (a : ExpressApp) (m : Middleware) : ExpressApp :=
  { a with uses := a.uses ++ [m] }

/-- `app.listen(port, cb)`: records the listen call. -/
def ExpressApp.listen (a : ExpressApp) (port : Option String)
    (cb : Unit → String) : ExpressApp :=
  { a with listenCalls := a.listenCalls ++ [(port, cb)] }

/-- The health-check handler: responds with status 200 and exactly the
JSON payload with the single member msg = "api is up and running 123". -/
def healthHandler : Handler :=
  fun _ => Response.jsonRes 200 [("msg", "api is up and running 123")]

/-- The route pattern of the production catch-all GET route. -/
def catchAllPath : String := "/\x7b*any\x7d"

/-- A route pattern is a catch-all when it contains an asterisk (as the
server tests detect it). -/
def isCatchAllRoute (p : String) : Bool :=
  p.toList.contains '*'

/-- The path of the frontend entry HTML file, relative to the server
source directory `dirname`: the build output directory plus `index.html`. -/
def indexHtmlPath (dirname : Path) : Path :=
  dirname ++ frontendDistSegs ++ ["index.html"]

/-- The production catch-all handler: on any request, sends the frontend
entry HTML file of the build output directory. -/
def catchAllHandler (dirname : Path) : Handler :=
  fun _ => Response.sendFile (indexHtmlPath dirname)

/-- The startup confirmation line logged by the listen completion
callback. -/
def startupMessage (port : Option String) : String :=
  "Server is running on port " ++ port.getD "undefined"

/-- Modelled from the spec: `backend/src/server.js` (the module itself is
absent from the sources; only its tests are present).  Constructing the
HTTP application, as a function of the server source directory `dirname`
and the loaded configuration record: always registers the GET `/health`
route; when the runtime mode equals "production", additionally registers
static-file serving rooted at the frontend build output directory and a
catch-all GET route sending the entry HTML file; finally begins listening
on the configured port with a callback logging a startup confirmation. -/
def buildServer (dirname : Path) (env : EnvRecord) : ExpressApp :=
  let app := ExpressApp.empty
  let app := app.get "/health" healthHandler
  let app :=
    if env.NODE_ENV = some "production" then
      let app := app.use (Middleware.staticServe (dirname ++ frontendDistSegs))
      app.get catchAllPath (catchAllHandler dirname)
    else
      app
  app.listen env.PORT (fun _ => startupMessage env.PORT)

/-- The virtual DOM rendered by the frontend. -/
inductive Html where
  | h1 (text : String)
  | signInButton
  | fragment (children : List Html)

/-- `src/frontend/src/App.jsx`: the initial value passed to `useState` for
the `count` state. -/
def appInitialCount : Nat := 0

/-- `src/frontend/src/App.jsx`: the output rendered by the `App`
component, as a function of its `count` state (the only input it has: the
component takes no props).  The body returns a fragment holding the static
heading and the embedded sign-in control, using neither `count` nor
`setCount`. -/
def App (count : Nat) : Html :=
  Html.fragment [Html.h1 "Welcome to Sign in", Html.signInButton]

/-- One invocation of the `App` component: renders the output and yields
the next value of the `count` state.  Since no code path invokes
`setCount`, the state is unchanged. -/
def AppStep (count : Nat) : Html × Nat :=
  (App count, count)

/-- The value of the `count` state after `n` invocations of `App`,
starting from the `useState` initial value. -/
def appCountAfter : Nat → Nat
  | 0 => appInitialCount
  | n + 1 => (AppStep (appCountAfter n)).2

/-! ## Helper lemmas -/

theorem orDefault_ne_none (v : Option String) (d : String) :
    orDefault v d ≠ none := by
  cases v with
  | none => simp [orDefault, jsFalsy]
  | some s =>
      simp only [orDefault, jsFalsy]
      split <;> simp

/-! ## Claims -/

/-- C5: for every process environment, each of the three configuration
fields exposed by the loader equals the corresponding process-environment
value unchanged, and loading leaves the process environment unchanged; a
missing value yields an absent field (pass-through) and raises no error
(the loader is a total function). -/
theorem env_passthrough (e : ProcessEnv) :
    (ENV e).PORT = e.PORT ∧ (ENV e).DB_URL = e.DB_URL ∧
    (ENV e).NODE_ENV = e.NODE_ENV ∧ (loadENV e).2 = e :=
  ⟨rfl, rfl, rfl, rfl⟩

/-- C6: the configuration record is exactly its three fields (two records
agreeing on port, database URL and runtime mode are equal), accessing a
field leaves the record and the process environment unchanged, and
repeated accesses yield equal values. -/
theorem env_record_readonly (f : Field) (s : EnvRecord × ProcessEnv)
    (r t : EnvRecord) :
    (accessENV f s).2 = s ∧
    (accessENV f ((accessENV f s).2)).1 = (accessENV f s).1 ∧
    (r = t ↔ (r.get .port = t.get .port ∧ r.get .dbUrl = t.get .dbUrl ∧
      r.get .nodeEnv = t.get .nodeEnv)) := by
  refine ⟨rfl, rfl, ?_⟩
  constructor
  · rintro rfl
    exact ⟨rfl, rfl, rfl⟩
  · rintro ⟨h1, h2, h3⟩
    cases r
    cases t
    simp only [EnvRecord.get] at h1 h2 h3
    simp [h1, h2, h3]

/-- C10: the test-environment setup unconditionally sets the runtime mode
to "test"; when the port or database-URL variable is absent it supplies
the defaults "3000" and "mongodb://localhost:27017/test"; after setup the
port and database-URL variables are never absent — unlike the loader
itself, which passes an absent port through as absent. -/
theorem jest_setup_defaults (e : ProcessEnv) :
    (jestSetup e).NODE_ENV = some "test" ∧
    (e.PORT = none → (jestSetup e).PORT = some "3000") ∧
    (e.DB_URL = none →
      (jestSetup e).DB_URL = some "mongodb://localhost:27017/test") ∧
    (jestSetup e).PORT ≠ none ∧
    (jestSetup e).DB_URL ≠ none ∧
    (ENV { PORT := none, DB_URL := none, NODE_ENV := e.NODE_ENV }).PORT
      = none := by
  refine ⟨rfl, ?_, ?_, orDefault_ne_none _ _, orDefault_ne_none _ _, rfl⟩
  · intro h
    simp [jestSetup, orDefault, jsFalsy, h]
  · intro h
    simp [jestSetup, orDefault, jsFalsy, h]

/-- Witness for C10 at the empty process environment. -/
theorem jest_setup_defaults_witness :
    (jestSetup { PORT := none, DB_URL := none, NODE_ENV := none }).PORT
      = some "3000" ∧
    (jestSetup { PORT := none, DB_URL := none, NODE_ENV := none }).DB_URL
      = some "mongodb://localhost:27017/test" :=
  ⟨(jest_setup_defaults { PORT := none, DB_URL := none, NODE_ENV := none }).2.1
      rfl,
    (jest_setup_defaults { PORT := none, DB_URL := none, NODE_ENV := none
      }).2.2.1 rfl⟩

/-- C1: for every runtime-mode value other than "production" (including
the absent value), constructing the HTTP application registers no
static-serving middleware and no catch-all route; the only registered
route is the health check. -/
theorem non_production_only_health (dirname : Path) (env : EnvRecord)
    (h : env.NODE_ENV ≠ some "production") :
    (buildServer dirname env).uses = [] ∧
    (buildServer dirname env).gets.filter (fun r => isCatchAllRoute r.1)
      = [] ∧
    (buildServer dirname env).gets.map Prod.fst = ["/health"] := by
  simp only [buildServer]
  rw [if_neg h]
  exact ⟨rfl, rfl, rfl⟩

/-- Witness for C1 at runtime mode "development". -/
theorem non_production_only_health_witness :
    (buildServer ["srv"]
      { PORT := some "3000", DB_URL := some "mongodb://localhost",
        NODE_ENV := some "development" }).uses = [] ∧
    (buildServer ["srv"]
      { PORT := some "3000", DB_URL := some "mongodb://localhost",
        NODE_ENV := some "development" }).gets.filter
      (fun r => isCatchAllRoute r.1) = [] ∧
    (buildServer ["srv"]
      { PORT := some "3000", DB_URL := some "mongodb://localhost",
        NODE_ENV := some "development" }).gets.map Prod.fst = ["/health"] :=
  non_production_only_health ["srv"]
    { PORT := some "3000", DB_URL := some "mongodb://localhost",
      NODE_ENV := some "development" } (by simp)

/-- C2: for runtime mode "production", constructing the HTTP application
registers exactly one static-serving middleware (rooted at the frontend
build output directory) and exactly one catch-all GET route (sending the
entry HTML file), and both reference a path containing the build output
directory name frontend/dist. -/
theorem production_static_and_catchall (dirname : Path) (env : EnvRecord)
    (req : Request) (h : env.NODE_ENV = some "production") :
    (buildServer dirname env).uses
      = [Middleware.staticServe (dirname ++ frontendDistSegs)] ∧
    "frontend" ∈ dirname ++ frontendDistSegs ∧
    "dist" ∈ dirname ++ frontendDistSegs ∧
    ((buildServer dirname env).gets.filter
      (fun r => isCatchAllRoute r.1)).map (fun r => (r.1, r.2 req))
      = [(catchAllPath, Response.sendFile (indexHtmlPath dirname))] ∧
    "frontend" ∈ indexHtmlPath dirname ∧
    "dist" ∈ indexHtmlPath dirname := by
  simp only [buildServer]
  rw [if_pos h]
  refine ⟨rfl, ?_, ?_, rfl, ?_, ?_⟩ <;>
    simp [frontendDistSegs, indexHtmlPath]

/-- Witness for C2 at runtime mode "production". -/
theorem production_static_and_catchall_witness :
    (buildServer ["srv"]
      { PORT := some "3000", DB_URL := some "mongodb://localhost",
        NODE_ENV := some "production" }).uses
      = [Middleware.staticServe (["srv"] ++ frontendDistSegs)] ∧
    "frontend" ∈ ["srv"] ++ frontendDistSegs ∧
    "dist" ∈ ["srv"] ++ frontendDistSegs ∧
    ((buildServer ["srv"]
      { PORT := some "3000", DB_URL := some "mongodb://localhost",
        NODE_ENV := some "production" }).gets.filter
      (fun r => isCatchAllRoute r.1)).map
      (fun r => (r.1, r.2 { method := "GET", url := "/about" }))
      = [(catchAllPath, Response.sendFile (indexHtmlPath ["srv"]))] ∧
    "frontend" ∈ indexHtmlPath ["srv"] ∧
    "dist" ∈ indexHtmlPath ["srv"] :=
  production_static_and_catchall ["srv"]
    { PORT := some "3000", DB_URL := some "mongodb://localhost",
      NODE_ENV := some "production" }
    { method := "GET", url := "/about" } rfl

/-- C3: for every runtime-mode value, exactly one GET /health route is
registered and, invoked on any request, it responds with status 200 and
exactly the JSON payload with msg = "api is up and running 123". -/
theorem health_route_responds (dirname : Path) (env : EnvRecord)
    (req : Request) :
    ((buildServer dirname env).gets.filter
      (fun r => r.1 == "/health")).map (fun r => r.2 req)
      = [Response.jsonRes 200 [("msg", "api is up and running 123")]] := by
  simp only [buildServer]
  by_cases h : env.NODE_ENV = some "production"
  · rw [if_pos h]
    rfl
  · rw [if_neg h]
    rfl

/-- C4: whenever the production catch-all handler is invoked, on any
request, it responds by sending the entry HTML file, whose path contains
the build output directory name and the entry HTML filename. -/
theorem catchall_sends_index (dirname : Path) (req : Request) :
    catchAllHandler dirname req = Response.sendFile (indexHtmlPath dirname) ∧
    "frontend" ∈ indexHtmlPath dirname ∧
    "dist" ∈ indexHtmlPath dirname ∧
    "index.html" ∈ indexHtmlPath dirname := by
  refine ⟨rfl, ?_, ?_, ?_⟩ <;> simp [indexHtmlPath, frontendDistSegs]

/-- C7: for every runtime mode and every (possibly absent) port field,
constructing the application makes exactly one listen call, on the
configured port, passing a completion callback that logs the startup
confirmation; the health route is registered on the same application. -/
theorem listen_configured_port (dirname : Path) (env : EnvRecord) :
    (buildServer dirname env).listenCalls.map Prod.fst = [env.PORT] ∧
    (buildServer dirname env).listenCalls.map (fun pc => pc.2 ())
      = [startupMessage env.PORT] ∧
    "/health" ∈ (buildServer dirname env).gets.map Prod.fst := by
  simp only [buildServer]
  by_cases h : env.NODE_ENV = some "production"
  · rw [if_pos h]
    exact ⟨rfl, rfl, by simp [ExpressApp.get, ExpressApp.use,
      ExpressApp.listen, ExpressApp.empty]⟩
  · rw [if_neg h]
    exact ⟨rfl, rfl, by simp [ExpressApp.get, ExpressApp.listen,
      ExpressApp.empty]⟩

/-- C8: any two invocations of the frontend root component render
identical output, namely the static heading and the embedded sign-in
control, with no dependence on the count state (its only input). -/
theorem app_renders_static (c1 c2 : Nat) :
    App c1 = App c2 ∧
    App c1 = Html.fragment [Html.h1 "Welcome to Sign in",
      Html.signInButton] :=
  ⟨rfl, rfl⟩

/-- C9: the count state is initialised to 0, a render never changes it
(setCount is never invoked), so after any number of renders it still
equals 0, and it never influences the rendered output. -/
theorem app_count_invariant (n c : Nat) :
    appCountAfter n = 0 ∧ (AppStep c).2 = c ∧
    App c = App appInitialCount := by
  refine ⟨?_, rfl, rfl⟩
  induction n with
  | zero => rfl
  | succ k ih => simpa [appCountAfter, AppStep] using ih

end MeetDev
